import Mathlib

/-!
Verification of the loom-ai-instructor server and client logic.

Server side (server.ts): the Express handlers over the better-sqlite3 store
are modelled as pure functions on explicit table states (lists of rows).
Prepared-statement parameter binding is modelled explicitly because
better-sqlite3 raises a RangeError when a statement is run with fewer bound
values than placeholders.

Client side (CodeIDE in Dashboard.tsx, services/gemini.ts): the code-runner
dispatch is modelled as a state transformer over the component state, with
the behaviour of the opaque runtimes (eval, pyodide, the remote AI call)
supplied as explicit inputs; try/catch/finally blocks are modelled by an
explicit combinator.

Numeric model: SQLite counts and JavaScript arithmetic on them are modelled
over exact naturals; JavaScript Math.round on a non-negative rational
rounds half toward positive infinity.
-/

namespace LoomAI

/-! ## Server data model (tables created in server.ts) -/

/-- A row of the courses table. Timestamp column created_at is not modelled. -/
structure CourseRow where
  id : String
  title : String
  description : String
  image_url : String
deriving Repr, DecidableEq

/-- A row of the modules table. The order_index column is never written by the
handlers and is not modelled. -/
structure ModuleRow where
  id : String
  course_id : String
  title : String
deriving Repr, DecidableEq

/-- A row of the lessons table. The order_index column is never written by the
handlers and is not modelled. -/
structure LessonRow where
  id : String
  module_id : String
  title : String
  concept : String
  «example» : String
  practice_guided : String
  practice_independent : String
  language : String
deriving Repr, DecidableEq

/-- A row of the step_progress table. The autoincrement id column is not
modelled; updated_at timestamps are modelled as naturals. -/
structure ProgressRow where
  lesson_id : String
  step_id : String
  status : String
  updated_at : Nat
deriving Repr, DecidableEq

/-- A row of the settings table. -/
structure SettingsRow where
  id : Nat
  theme : String
  voice_enabled : Nat
deriving Repr, DecidableEq

/-- The whole store: the five tables, each as a list of rows in rowid
(insertion) order, which is the order SELECT without ORDER BY returns. -/
structure DB where
  courses : List CourseRow
  modules : List ModuleRow
  lessons : List LessonRow
  step_progress : List ProgressRow
  settings : List SettingsRow
deriving Repr, DecidableEq

/-- Errors raised by the store layer. tooFewParameters models the RangeError
raised by better-sqlite3 when a prepared statement is run with fewer bound
parameter values than it has placeholders; uniqueConstraint models a
violation of the UNIQUE(lesson_id, step_id) constraint on step_progress. -/
inductive SqliteError where
  | tooFewParameters
  | uniqueConstraint
deriving Repr, DecidableEq

/-! ## POST /api/progress (server.ts lines 207-220) -/

/-- Running the prepared statement
SELECT * FROM step_progress WHERE lesson_id = ? AND step_id = ?
with the given list of bound parameter values. The statement has two
placeholders, so better-sqlite3 raises unless exactly two values are bound. -/
def progressLookup (t : List ProgressRow) (params : List String) :
    Except SqliteError (Option ProgressRow) :=
  match params with
  | [lid, sid] => Except.ok (t.find? (fun r => r.lesson_id == lid && r.step_id == sid))
  | _ => Except.error SqliteError.tooFewParameters

/-- The POST /api/progress handler. The source reads the body, then runs
const existing = db.prepare("SELECT ... WHERE lesson_id = ? AND step_id = ?").get();
with NO arguments bound, then either UPDATEs (refreshing updated_at, modelled
by now) or INSERTs. A raised store error aborts the handler before any write
(Express answers 500); otherwise the response is success true. -/
def postProgress (t : List ProgressRow) (lesson_id step_id status : String)
    (now : Nat) : Except SqliteError (List ProgressRow × Bool) :=
  match progressLookup t [] with
  | Except.error e => Except.error e
  | Except.ok existing =>
    match existing with
    | some _ =>
        Except.ok
          (t.map (fun r =>
            if r.lesson_id == lesson_id && r.step_id == step_id then
              { r with status := status, updated_at := now }
            else r), true)
    | none =>
        if t.any (fun r => r.lesson_id == lesson_id && r.step_id == step_id) then
          Except.error SqliteError.uniqueConstraint
        else
          Except.ok (t ++ [⟨lesson_id, step_id, status, now⟩], true)

/-! ## Settings handlers (server.ts lines 222-237) -/

/-- The row produced by INSERT INTO settings (id) VALUES (1): the remaining
columns take their schema defaults theme = dark, voice_enabled = 1. -/
def defaultSettingsRow : SettingsRow := ⟨1, "dark", 1⟩

/-- The GET /api/settings handler: select the id = 1 row; if absent, insert
the defaults row and re-select. Returns the JSON-encoded row (if any) and the
settings table after the request. -/
def getSettings (t : List SettingsRow) : Option SettingsRow × List SettingsRow :=
  match t.find? (fun r => r.id == 1) with
  | some s => (some s, t)
  | none =>
      let t2 := t ++ [defaultSettingsRow]
      (t2.find? (fun r => r.id == 1), t2)

/-- The POST /api/settings handler: UPDATE settings SET theme = ?,
voice_enabled = ? WHERE id = 1, then respond success true unconditionally.
An UPDATE matching zero rows succeeds and changes nothing. The body value
voice_enabled is coerced with a conditional to 1 or 0. -/
def postSettings (t : List SettingsRow) (theme : String) (voice_enabled : Bool) :
    List SettingsRow × Bool :=
  (t.map (fun r =>
      if r.id == 1 then
        { r with theme := theme, voice_enabled := if voice_enabled then 1 else 0 }
      else r), true)

/-! ## GET /api/courses (server.ts lines 148-177) -/

/-- Exact-rational model of JavaScript Math.round((c / t) * 100) for natural
c and positive natural t: Math.round rounds half toward positive infinity,
so the value is the floor of 100 * c / t + 1 / 2, i.e. (200 * c + t) / (2 * t)
in natural division. -/
def mathRound100 (c t : Nat) : Nat := (200 * c + t) / (2 * t)

/-- The per-course progress computation of the GET /api/courses handler
(lines 157-172): totalSteps is 5 per lesson; completedCount counts the
step_progress rows whose lesson_id is among the course lesson ids and whose
status is completed; progress is the rounded percentage, or 0 when there are
no steps. -/
def courseProgress (allLessonIds : List String) (sp : List ProgressRow) : Nat :=
  let totalSteps := allLessonIds.length * 5
  let completedCount :=
    if allLessonIds.length > 0 then
      (sp.filter (fun r =>
        allLessonIds.contains r.lesson_id && r.status == "completed")).length
    else 0
  if totalSteps > 0 then mathRound100 completedCount totalSteps else 0

/-- One element of the GET /api/courses response: the course row, its modules
each paired with their lessons, and the computed progress percentage. -/
structure CourseOut where
  course : CourseRow
  modules : List (ModuleRow × List LessonRow)
  progress : Nat
deriving Repr, DecidableEq

/-- The GET /api/courses handler: for every course, gather its modules and
their lessons, then compute progress from the flattened lesson id list. -/
def getCourses (db : DB) : List CourseOut :=
  db.courses.map (fun course =>
    let modules := db.modules.filter (fun m => m.course_id == course.id)
    let fullModules := modules.map (fun m =>
      (m, db.lessons.filter (fun l => l.module_id == m.id)))
    let allLessonIds := fullModules.flatMap (fun ml => ml.2.map (fun l => l.id))
    { course := course, modules := fullModules,
      progress := courseProgress allLessonIds db.step_progress })

/-! ## Spec-side progress formula (section 3 of the spec) -/

/-- Round half up of the non-negative rational num / den, den positive. -/
def roundHalfUpDiv (num den : Nat) : Nat := (2 * num + den) / (2 * den)

/-- Modelled from the spec's words, for comparison with the code: progress of
a course with lesson id list L is round(100 * completed / (|L| * 5)) where
completed counts StepProgress rows with status completed whose lesson_id
belongs to the course, and progress is 0 when the course has zero lessons. -/
def specProgress (lessonIds : List String) (sp : List ProgressRow) : Nat :=
  if lessonIds.length = 0 then 0
  else
    roundHalfUpDiv
      (100 * (sp.filter (fun r =>
        lessonIds.contains r.lesson_id && r.status == "completed")).length)
      (lessonIds.length * 5)

/-- The lesson ids belonging to a course in the store: the ids of lessons
whose module belongs to the course. -/
def courseLessonIds (db : DB) (c : CourseRow) : List String :=
  (db.modules.filter (fun m => m.course_id == c.id)).flatMap
    (fun m => (db.lessons.filter (fun l => l.module_id == m.id)).map (fun l => l.id))

/-- The five fixed lesson steps (the LessonStep union type of the client). -/
def lessonSteps : List String :=
  ["explanation", "example", "guided", "independent", "feedback"]

/-- C3 counterexample table: a schema-valid step_progress table whose step ids
lie outside the five named stages. It has one lesson and six distinct
completed step rows, so the handler counts 6 completed steps against a
denominator of 5 steps for the single lesson. -/
def overCountTable : List ProgressRow :=
  [⟨"l1", "s1", "completed", 0⟩, ⟨"l1", "s2", "completed", 0⟩,
   ⟨"l1", "s3", "completed", 0⟩, ⟨"l1", "s4", "completed", 0⟩,
   ⟨"l1", "s5", "completed", 0⟩, ⟨"l1", "s6", "completed", 0⟩]

/-! ## Client code runner (CodeIDE in Dashboard.tsx) -/

/-- A JavaScript value thrown by user code, the pyodide runtime, or the AI
feedback call, as discriminated by formatError: an Error instance (carrying
its message), a string, an Event (carrying its type), or any other value
(carrying the result of JSON.stringify when it succeeds, else its String
form). -/
inductive JsErrVal where
  | errObj (message : String)
  | strVal (s : String)
  | eventVal (eventType : String)
  | objVal (stringified : Option String) (strForm : String)
deriving Repr, DecidableEq

/-- The formatError helper of CodeIDE (lines 182-191). -/
def formatError : JsErrVal → String
  | JsErrVal.errObj m => m
  | JsErrVal.strVal s => s
  | JsErrVal.eventVal t => "Event: " ++ t
  | JsErrVal.objVal (some j) _ => j
  | JsErrVal.objVal none s => s

/-- The value of the global console.log binding: the browser original, or the
capturing closure installed by the javascript branch. -/
inductive ConsoleHook where
  | original
  | capture
deriving Repr, DecidableEq

/-- The activeTab component state. -/
inductive EditorTab where
  | editor
  | preview
deriving Repr, DecidableEq

/-- The lesson language, the dispatch key of runCode. -/
inductive CodeLanguage where
  | javascript
  | html
  | css
  | python
deriving Repr, DecidableEq

/-- The component state touched by runCode: the output console text, the
isRunning flag, the global console.log binding, the preview tab and iframe
document, and the two observation fields recording whether a feedback request
was issued (with the output value it carried) and whether a response was
delivered to onFeedback. -/
structure RunnerState where
  output : String
  isRunning : Bool
  consoleLog : ConsoleHook
  activeTab : EditorTab
  iframeDoc : Option String
  feedbackRequested : Option String
  feedbackDelivered : Option String
deriving Repr, DecidableEq

/-- The component's initial state. -/
def initialRunnerState : RunnerState :=
  ⟨"", false, ConsoleHook.original, EditorTab.editor, none, none, none⟩

/-- The observable behaviour of eval(code) under the capturing console.log:
the argument lists (already String-converted) of the console.log calls it
makes, in order, and an optional uncaught thrown value (the calls listed are
those made before the fault). -/
structure JsEval where
  calls : List (List String)
  fault : Option JsErrVal
deriving Repr, DecidableEq

/-- Explicit semantics of try { body } catch (e) { handler } finally { fin }:
run the body; if it raises, run the handler on the raised value; in either
case run the finally block on the resulting state. -/
def tryCatchFinally {St E : Type} (body : St → St × Option E)
    (handler : E → St → St) (fin : St → St) (s : St) : St :=
  match body s with
  | (s1, none) => fin s1
  | (s1, some e) => fin (handler e s1)

/-- One captured console line: args.map(a => String(a)).join(' '). -/
def jsLogLines (calls : List (List String)) : List String :=
  calls.map (fun args => String.intercalate " " args)

/-- The javascript branch of runCode (lines 198-211): install the capturing
console.log; try { eval(code); setOutput(logs.join newline or the fixed
success message) } catch { setOutput Error-prefixed message } finally
{ restore console.log }. The empty string is the only falsy join result. -/
def runJsBranch (ev : JsEval) (s : RunnerState) : RunnerState :=
  let s1 := { s with consoleLog := ConsoleHook.capture }
  tryCatchFinally
    (fun s =>
      match ev.fault with
      | none =>
          let joined := String.intercalate "\n" (jsLogLines ev.calls)
          ({ s with output :=
              if joined == "" then "Code executed successfully (no output)." else joined },
            none)
      | some e => (s, some e))
    (fun e s => { s with output := "Error: " ++ formatError e })
    (fun s => { s with consoleLog := ConsoleHook.original })
    s1

/-- The html branch (lines 212-222): switch to the preview tab, replace the
iframe document with the code, output the fixed acknowledgement. -/
def runHtmlBranch (code : String) (s : RunnerState) : RunnerState :=
  { s with activeTab := EditorTab.preview, iframeDoc := some code,
           output := "HTML rendered in preview." }

/-- The python branch (lines 223-234): with no loaded interpreter the output
is the fixed not-ready string and nothing is raised; with an interpreter, the
result's String form is the output (the fixed success message when that form
is empty, the only falsy case), and an interpreter-raised fault is caught and
formatted with the Python Error prefix. The interpreter behaviour on the
current source is supplied as a value of Except. -/
def runPyBranch (py : Option (Except JsErrVal String)) (s : RunnerState) : RunnerState :=
  match py with
  | none => { s with output := "Python runtime not ready." }
  | some (Except.ok r) =>
      { s with output := if r == "" then "Code executed successfully." else r }
  | some (Except.error e) =>
      { s with output := "Python Error: " ++ formatError e }

/-- The inputs of one runCode invocation: the lesson language, the source
text, the behaviours of the opaque runtimes (eval, pyodide), the value of the
output state variable bound when the component rendered (the closure variable
read by the feedback call), and the AI feedback call's behaviour as a
function of the output string it is handed. -/
structure RunInput where
  language : CodeLanguage
  code : String
  jsEval : JsEval
  pyodide : Option (Except JsErrVal String)
  outputAtRender : String
  feedback : String → Except JsErrVal String

/-- The if/else dispatch chain of runCode (lines 198-234). A css lesson
matches no branch and the state is untouched. -/
def dispatchRun (inp : RunInput) (s : RunnerState) : RunnerState :=
  match inp.language with
  | CodeLanguage.javascript => runJsBranch inp.jsEval s
  | CodeLanguage.html => runHtmlBranch inp.code s
  | CodeLanguage.python => runPyBranch inp.pyodide s
  | CodeLanguage.css => s

/-- The whole runCode handler (lines 193-244): set isRunning, clear the
output, then try { dispatch by language; await getCodeFeedback(lesson, code,
output) where output is the render-time state value, not the output written
by this run; onFeedback(response) } catch { setOutput System-Error-prefixed
message } finally { clear isRunning }. The dispatch branches catch their own
faults, so the only raise reaching the outer catch is the feedback call. -/
def runCode (inp : RunInput) (s : RunnerState) : RunnerState :=
  let s0 := { s with isRunning := true, output := "" }
  tryCatchFinally
    (fun s =>
      let s1 := dispatchRun inp s
      match inp.feedback inp.outputAtRender with
      | Except.ok fb =>
          ({ s1 with feedbackRequested := some inp.outputAtRender,
                     feedbackDelivered := some fb }, none)
      | Except.error e =>
          ({ s1 with feedbackRequested := some inp.outputAtRender }, some e))
    (fun e s => { s with output := "System Error: " ++ formatError e })
    (fun s => { s with isRunning := false })
    s0

/-- C4 counterexample input: a javascript run that logs hi and succeeds,
started while the render-time output state is empty, whose feedback request
fails with an Error whose message is boom. -/
def runInputC4 : RunInput :=
  { language := CodeLanguage.javascript
    code := "console.log(42)"
    jsEval := ⟨[["hi"]], none⟩
    pyodide := none
    outputAtRender := ""
    feedback := fun _ => Except.error (JsErrVal.errObj "boom") }

/-- C9 witness input: a python run started before the interpreter loaded,
with a feedback call that answers normally. -/
def runInputC9 : RunInput :=
  { language := CodeLanguage.python
    code := "print(1)"
    jsEval := ⟨[], none⟩
    pyodide := none
    outputAtRender := ""
    feedback := fun o => Except.ok o }

/-! ## AI retry wrapper (services/gemini.ts lines 132-152) -/

/-- A failure of the remote AI call: an optional message and an optional
status field, the two fields the quota test optional-chains into. -/
structure GeminiError where
  message : Option String
  status : Option String
deriving Repr, DecidableEq

/-- Containment test on character lists: does pat occur contiguously? -/
def charsInclude (pat : List Char) : List Char → Bool
  | [] => pat.isPrefixOf []
  | c :: rest => pat.isPrefixOf (c :: rest) || charsInclude pat rest

/-- JavaScript String.prototype.includes: pat occurs contiguously in s. -/
def strIncludes (s pat : String) : Bool := charsInclude pat.toList s.toList

/-- The quota classification of withRetry: message contains 429 or quota, or
status is RESOURCE_EXHAUSTED; a missing field is falsy under the optional
chain. -/
def isQuotaError (e : GeminiError) : Bool :=
  (match e.message with | some m => strIncludes m "429" | none => false)
    || (match e.message with | some m => strIncludes m "quota" | none => false)
    || e.status == some "RESOURCE_EXHAUSTED"

/-- The error thrown by the unreachable line after withRetry's loop. -/
def maxRetriesError : GeminiError := ⟨some "Max retries exceeded", none⟩

/-- The loop of withRetry. The i-th call of fn is the i-th awaited attempt;
r + 1 is the number of loop iterations left, so the source's guard
i < retries - 1 is r not zero; a retried quota failure waits the current
delay (appended to the wait trace) and doubles it; any other failure, or a
quota failure on the last iteration, is rethrown. -/
def withRetryGo {α : Type} (fn : Nat → Except GeminiError α) :
    Nat → Nat → Nat → List Nat → Except GeminiError α × List Nat
  | _, 0, _, waits => (Except.error maxRetriesError, waits)
  | i, r + 1, delay, waits =>
      match fn i with
      | Except.ok a => (Except.ok a, waits)
      | Except.error e =>
          if isQuotaError e && r != 0 then
            withRetryGo fn (i + 1) r (delay * 2) (waits ++ [delay])
          else (Except.error e, waits)

/-- withRetry(fn, retries, delay): the defaults at every call site except
text-to-speech are retries 3, delay 1000. Returns the propagated result and
the trace of waits performed between attempts. -/
def withRetry {α : Type} (fn : Nat → Except GeminiError α)
    (retries delay : Nat) : Except GeminiError α × List Nat :=
  withRetryGo fn 0 retries delay []

/-- C8 witness input: a call that always fails with a non-quota error. -/
def fnNonQuota : Nat → Except GeminiError Nat :=
  fun _ => Except.error ⟨some "boom", none⟩

/-! ## POST /api/courses (server.ts lines 179-200) -/

/-- A lesson of the POST /api/courses request body. The id is optional; the
handler treats an absent or empty id as falsy and generates one. -/
structure LessonBody where
  id : Option String
  title : String
  concept : String
  «example» : String
  practice_guided : String
  practice_independent : String
  language : String
deriving Repr, DecidableEq

/-- A module of the POST /api/courses request body. -/
structure ModuleBody where
  id : Option String
  title : String
  lessons : List LessonBody
deriving Repr, DecidableEq

/-- The POST /api/courses request body: the handler destructures exactly
title, description, image_url and modules, so a course id cannot be supplied. -/
structure CourseBody where
  title : String
  description : String
  image_url : Option String
  modules : List ModuleBody
deriving Repr, DecidableEq

/-- JavaScript a || b for an optional string a: undefined and the empty
string are the falsy cases. -/
def jsOrStr (a : Option String) (b : String) : String :=
  match a with
  | some s => if s == "" then b else s
  | none => b

/-- The fallback image url built around the generated course id. -/
def defaultImage (courseId : String) : String :=
  "https://picsum.photos/seed/" ++ courseId ++ "/800/450"

/-- The module ids the handler uses, in posted order: the given id when
present and non-empty, else the generated one for that position. The
generated ids (Date.now with a random suffix) are injected as the indexed
supply fm. -/
def resolvedModuleIds (body : CourseBody) (fm : Nat → String) : List String :=
  body.modules.enum.map (fun im => jsOrStr im.2.id (fm im.1))

/-- The lesson rows the inner loop inserts for one module, in posted order:
each lesson keeps its given non-empty id or takes the generated one for its
position, and carries the surrounding module's id and its posted fields. -/
def postedLessonRows (mid : String) (fl : Nat → String) (lbs : List LessonBody) :
    List LessonRow :=
  lbs.enum.map (fun jl =>
    ⟨jsOrStr jl.2.id (fl jl.1), mid, jl.2.title, jl.2.concept, jl.2.«example»,
     jl.2.practice_guided, jl.2.practice_independent, jl.2.language⟩)

/-- The POST /api/courses handler: insert the course row (with the always
server-generated course id cid and the or-else image url), then for each
posted module insert its module row followed by its lesson rows; respond with
the course id. The nested insert loops only append, giving the concatenated
tables below; generated ids are injected as the supplies cid, fm and fl. -/
def postCourses (db : DB) (body : CourseBody) (cid : String)
    (fm : Nat → String) (fl : Nat → Nat → String) : DB × String :=
  let courseRow : CourseRow :=
    ⟨cid, body.title, body.description, jsOrStr body.image_url (defaultImage cid)⟩
  let modRows := body.modules.enum.map (fun im =>
    (⟨jsOrStr im.2.id (fm im.1), cid, im.2.title⟩ : ModuleRow))
  let lesRows := body.modules.enum.flatMap (fun im =>
    postedLessonRows (jsOrStr im.2.id (fm im.1)) (fl im.1) im.2.lessons)
  ({ db with courses := db.courses ++ [courseRow],
             modules := db.modules ++ modRows,
             lessons := db.lessons ++ lesRows }, cid)

/-- The per-lesson fields of a stored lesson row that the round-trip claim
compares: title, concept, example, both practice fields and language. -/
def lessonRowFields (l : LessonRow) : String × String × String × String × String × String :=
  (l.title, l.concept, l.«example», l.practice_guided, l.practice_independent, l.language)

/-- The same fields of a posted lesson body. -/
def lessonBodyFields (lb : LessonBody) : String × String × String × String × String × String :=
  (lb.title, lb.concept, lb.«example», lb.practice_guided, lb.practice_independent, lb.language)

/-- An empty store, for the C7 witness. -/
def emptyDB : DB := ⟨[], [], [], [], []⟩

/-- A concrete one-module, one-lesson body for the C7 witness: the module
carries its own id, the lesson id is left for the server to generate. -/
def bodyW : CourseBody :=
  { title := "T", description := "D", image_url := none,
    modules := [{ id := some "mA", title := "M1",
                  lessons := [{ id := none, title := "L1", concept := "C",
                                «example» := "E", practice_guided := "G",
                                practice_independent := "I",
                                language := "javascript" }] }] }

/-! ## Helper lemmas -/

theorem listFlatMap_map {α β γ : Type} (f : α → β) (g : β → List γ) (l : List α) :
    (l.map f).flatMap g = l.flatMap (fun a => g (f a)) := by
  induction l with
  | nil => rfl
  | cons a l ih => simp [List.flatMap_cons, ih]

theorem mathRound100_eq_roundHalfUpDiv (c t : Nat) :
    mathRound100 c t = roundHalfUpDiv (100 * c) t := by
  unfold mathRound100 roundHalfUpDiv
  congr 1
  ring

theorem courseProgress_eq_specProgress (L : List String) (sp : List ProgressRow) :
    courseProgress L sp = specProgress L sp := by
  unfold courseProgress specProgress
  by_cases h : L.length = 0
  · simp [h]
  · have hpos : 0 < L.length := Nat.pos_of_ne_zero h
    have h5 : 0 < L.length * 5 := by omega
    simp only [if_pos hpos, if_pos h5, if_neg h]
    exact mathRound100_eq_roundHalfUpDiv _ _

theorem enumMap_snd {α β : Type} (l : List α) (h : α → β) :
    l.enum.map (fun p => h p.2) = l.map h := by
  calc l.enum.map (fun p => h p.2) = (l.enum.map Prod.snd).map h := by
        rw [List.map_map]; rfl
    _ = l.map h := by rw [List.enum_map_snd]

theorem filter_flatMap_unique {α β : Type} (key : α → String) (g : α → List β)
    (pid : β → String) :
    ∀ R : List α, (R.map key).Nodup →
      (∀ a ∈ R, ∀ b ∈ g a, pid b = key a) →
      ∀ a ∈ R, (R.flatMap g).filter (fun b => pid b == key a) = g a := by
  intro R
  induction R with
  | nil =>
    intro _ _ a ha
    simp at ha
  | cons x R ih =>
    intro hnd hall a ha
    rw [List.map_cons, List.nodup_cons] at hnd
    rw [List.flatMap_cons, List.filter_append]
    rcases List.mem_cons.mp ha with rfl | haR
    · have hx : (g a).filter (fun b => pid b == key a) = g a := by
        rw [List.filter_eq_self]
        intro b hb
        simp [hall a (List.mem_cons_self a R) b hb]
      have hrest : (R.flatMap g).filter (fun b => pid b == key a) = [] := by
        rw [List.filter_eq_nil_iff]
        intro b hb
        obtain ⟨a2, ha2, hb2⟩ := List.mem_flatMap.mp hb
        have hpid : pid b = key a2 := hall a2 (List.mem_cons_of_mem _ ha2) b hb2
        have hne : key a2 ≠ key a := by
          intro hEq
          exact hnd.1 (hEq ▸ List.mem_map_of_mem key ha2)
        simp [hpid, hne]
      rw [hx, hrest, List.append_nil]
    · have hx : (g x).filter (fun b => pid b == key a) = [] := by
        rw [List.filter_eq_nil_iff]
        intro b hb
        have hpid : pid b = key x := hall x (List.mem_cons_self x R) b hb
        have hne : key x ≠ key a := by
          intro hEq
          exact hnd.1 (hEq ▸ List.mem_map_of_mem key haR)
        simp [hpid, hne]
      rw [hx, List.nil_append]
      exact ih hnd.2 (fun a2 ha2 => hall a2 (List.mem_cons_of_mem x ha2)) a haR

theorem postedLessonRows_fields (mid : String) (fl : Nat → String)
    (lbs : List LessonBody) :
    (postedLessonRows mid fl lbs).map lessonRowFields = lbs.map lessonBodyFields := by
  unfold postedLessonRows
  rw [List.map_map]
  exact enumMap_snd lbs lessonBodyFields

theorem postedLessonRows_ids (mid : String) (fl : Nat → String)
    (lbs : List LessonBody) :
    (postedLessonRows mid fl lbs).map (fun l => l.id)
      = lbs.enum.map (fun jl => jsOrStr jl.2.id (fl jl.1)) := by
  unfold postedLessonRows
  rw [List.map_map]
  rfl

/-! ## Claim theorems: server -/

/-- C1: the POST /api/progress handler never performs its upsert. The
existence lookup runs the two-placeholder statement with no bound parameter
values, so every request raises the too-few-parameters error before any
write; the handler answers 500 and the table is left unchanged, for every
table state and every request body. -/
theorem postProgress_always_errors (t : List ProgressRow)
    (lid sid status : String) (now : Nat) :
    postProgress t lid sid status now = Except.error SqliteError.tooFewParameters := rfl

/-- C2: for every course in the store, the progress returned by
GET /api/courses equals round(100 * completed_steps / (lessons_in_course * 5)),
where completed_steps counts step_progress rows with status completed whose
lesson_id belongs to the course, and progress is 0 for a course with zero
lessons (the spec-side formula specProgress). -/
theorem getCourses_progress_eq_spec (db : DB) :
    (getCourses db).map (fun e => e.progress)
      = db.courses.map (fun c => specProgress (courseLessonIds db c) db.step_progress) := by
  unfold getCourses courseLessonIds
  rw [List.map_map]
  apply List.map_congr_left
  intro c _
  simp only [Function.comp_apply]
  rw [listFlatMap_map]
  exact courseProgress_eq_specProgress _ _

/-- C3 is false as stated: at lesson set L = [l1] and the table above, the
computed progress is 120, which exceeds 100. -/
theorem courseProgress_exceeds_bound :
    courseProgress ["l1"] overCountTable = 120
      ∧ ¬ courseProgress ["l1"] overCountTable ≤ 100 := by
  constructor <;> decide

/-- C3 (amended): when the table respects the UNIQUE(lesson_id, step_id)
constraint and every step_id is one of the five named stages, the computed
progress lies in [0, 100] (values are naturals, so 0 is a lower bound); and
it is 0 when L is empty or the table has no completed rows for L. -/
theorem courseProgress_in_range (L : List String) (T : List ProgressRow)
    (hnd : (T.map (fun r => (r.lesson_id, r.step_id))).Nodup)
    (hsteps : ∀ r ∈ T, r.step_id ∈ lessonSteps) :
    courseProgress L T ≤ 100
      ∧ (L = [] → courseProgress L T = 0)
      ∧ ((T.filter (fun r =>
            L.contains r.lesson_id && r.status == "completed")).length = 0 →
          courseProgress L T = 0) := by
  classical
  by_cases hL : L.length = 0
  · have hLnil : L = [] := List.length_eq_zero.mp hL
    subst hLnil
    refine ⟨by simp [courseProgress], fun _ => by simp [courseProgress], fun _ => by simp [courseProgress]⟩
  · have hn : 0 < L.length := Nat.pos_of_ne_zero hL
    have h5 : 0 < L.length * 5 := by omega
    set c := (T.filter (fun r =>
        L.contains r.lesson_id && r.status == "completed")).length with hc
    have hval : courseProgress L T = (200 * c + L.length * 5) / (2 * (L.length * 5)) := by
      unfold courseProgress mathRound100
      simp only [if_pos hn, if_pos h5]
    have hcle : c ≤ L.length * 5 := by
      have hsubl : ((T.filter (fun r =>
            L.contains r.lesson_id && r.status == "completed")).map
              (fun r => (r.lesson_id, r.step_id))).Sublist
            (T.map (fun r => (r.lesson_id, r.step_id))) :=
        (List.filter_sublist T).map _
      have hknd := hnd.sublist hsubl
      have hsubset : ((T.filter (fun r =>
            L.contains r.lesson_id && r.status == "completed")).map
              (fun r => (r.lesson_id, r.step_id))).toFinset
            ⊆ L.toFinset ×ˢ lessonSteps.toFinset := by
        intro x hx
        simp only [List.mem_toFinset, List.mem_map] at hx
        obtain ⟨r, hr, rfl⟩ := hx
        have hrT : r ∈ T := (List.mem_filter.mp hr).1
        have hrP := (List.mem_filter.mp hr).2
        simp at hrP
        exact Finset.mem_product.mpr
          ⟨List.mem_toFinset.mpr hrP.1, List.mem_toFinset.mpr (hsteps r hrT)⟩
      have hcard : ((T.filter (fun r =>
            L.contains r.lesson_id && r.status == "completed")).map
              (fun r => (r.lesson_id, r.step_id))).toFinset.card = c := by
        rw [List.toFinset_card_of_nodup hknd, List.length_map]
      have hle := Finset.card_le_card hsubset
      rw [hcard, Finset.card_product] at hle
      have hsc : lessonSteps.toFinset.card = 5 := by decide
      rw [hsc] at hle
      calc c ≤ L.toFinset.card * 5 := hle
        _ ≤ L.length * 5 := Nat.mul_le_mul_right 5 L.toFinset_card_le
    refine ⟨?_, ?_, ?_⟩
    · rw [hval]
      have h2t : 0 < 2 * (L.length * 5) := by omega
      have hlt : 200 * c + L.length * 5 < 101 * (2 * (L.length * 5)) := by omega
      have := (Nat.div_lt_iff_lt_mul h2t).mpr hlt
      omega
    · intro h
      subst h
      simp at hn
    · intro h0
      rw [hval, h0]
      simp only [Nat.mul_zero, Nat.zero_add]
      exact Nat.div_eq_of_lt (by omega)

/-- Witness for the amended C3 at a concrete schema-valid table. -/
theorem courseProgress_in_range_witness :
    (([⟨"l1", "explanation", "completed", 0⟩] : List ProgressRow).map
        (fun r => (r.lesson_id, r.step_id))).Nodup
      ∧ (∀ r ∈ ([⟨"l1", "explanation", "completed", 0⟩] : List ProgressRow),
          r.step_id ∈ lessonSteps)
      ∧ courseProgress ["l1"] [⟨"l1", "explanation", "completed", 0⟩] ≤ 100 :=
  ⟨by decide, by decide,
    (courseProgress_in_range ["l1"] [⟨"l1", "explanation", "completed", 0⟩]
      (by decide) (by decide)).1⟩

/-- C6: GET /api/settings on an empty settings table answers the defaults row
with id 1, theme dark, voice_enabled 1, persists that row, and a subsequent
read finds the row already present. -/
theorem getSettings_lazy_defaults :
    getSettings [] = (some defaultSettingsRow, [defaultSettingsRow])
      ∧ defaultSettingsRow = ⟨1, "dark", 1⟩
      ∧ getSettings (getSettings []).2 = (some defaultSettingsRow, [defaultSettingsRow]) :=
  ⟨rfl, rfl, rfl⟩

/-- C10: POST /api/settings on an empty settings table answers success yet
persists nothing (the UPDATE matches zero rows), and a subsequent
GET /api/settings returns the lazily created defaults, not the posted theme. -/
theorem postSettings_empty_success_noop :
    postSettings [] "light" true = ([], true)
      ∧ (getSettings (postSettings [] "light" true).1).1 = some defaultSettingsRow
      ∧ defaultSettingsRow.theme ≠ "light" :=
  ⟨rfl, rfl, by decide⟩

/-- The dispatch branches never touch the feedback observation fields: no
branch issues or delivers a feedback request. -/
theorem dispatchRun_preserves_feedback (inp : RunInput) (s : RunnerState) :
    (dispatchRun inp s).feedbackRequested = s.feedbackRequested
      ∧ (dispatchRun inp s).feedbackDelivered = s.feedbackDelivered := by
  unfold dispatchRun runJsBranch runHtmlBranch runPyBranch tryCatchFinally
  cases inp.language
  · cases inp.jsEval.fault <;> simp
  · simp
  · simp
  · rcases inp.pyodide with _ | r
    · simp
    · cases r <;> simp

/-! ## Claim theorems: client -/

/-- C5: for every javascript run, the captured console lines (one per
console.log call, its String-converted arguments joined by spaces) are joined
by newlines into the output, with the fixed success message when the join is
empty; an uncaught fault is caught and yields the Error-prefixed output
string instead of propagating; and console.log is restored to the original
binding by the finally block on both the success and the fault path, also
through the whole runCode handler. -/
theorem runJs_console_capture_restore :
    (∀ (ev : JsEval) (s : RunnerState),
        (runJsBranch ev s).consoleLog = ConsoleHook.original
          ∧ (ev.fault = none →
              (runJsBranch ev s).output =
                (if String.intercalate "\n" (jsLogLines ev.calls) == "" then
                  "Code executed successfully (no output)."
                 else String.intercalate "\n" (jsLogLines ev.calls)))
          ∧ (∀ e, ev.fault = some e →
              (runJsBranch ev s).output = "Error: " ++ formatError e))
      ∧ (∀ (inp : RunInput) (s : RunnerState),
          inp.language = CodeLanguage.javascript →
          (runCode inp s).consoleLog = ConsoleHook.original) := by
  have hcl : ∀ (ev : JsEval) (s1 : RunnerState),
      (runJsBranch ev s1).consoleLog = ConsoleHook.original := by
    intro ev s1
    unfold runJsBranch tryCatchFinally
    cases ev.fault <;> rfl
  refine ⟨fun ev s => ⟨hcl ev s, ?_, ?_⟩, fun inp s hl => ?_⟩
  · intro hf
    simp [runJsBranch, tryCatchFinally, hf]
  · intro e hf
    simp [runJsBranch, tryCatchFinally, hf]
  · unfold runCode tryCatchFinally dispatchRun
    rw [hl]
    cases hfb : inp.feedback inp.outputAtRender <;> simp [hcl]

/-- Witness for C5 at a concrete two-line run without fault. -/
theorem runJs_console_capture_restore_witness :
    (runJsBranch ⟨[["a", "b"], ["c"]], none⟩ initialRunnerState).consoleLog
        = ConsoleHook.original
      ∧ (runJsBranch ⟨[["a", "b"], ["c"]], none⟩ initialRunnerState).output = "a b\nc" := by
  constructor
  · exact (runJs_console_capture_restore.1 ⟨[["a", "b"], ["c"]], none⟩ initialRunnerState).1
  · exact ((runJs_console_capture_restore.1 ⟨[["a", "b"], ["c"]], none⟩
      initialRunnerState).2.1 rfl).trans (by decide)

/-- C4 counterexample: the feedback request is issued with the render-time
output value (here the empty string, not the hi just captured), and its
failure is caught by the outer handler, which replaces the run's own output
hi with the System-Error-prefixed message — the claim's no-masking guarantee
fails, as does its claim that the captured output is forwarded. -/
theorem runCode_feedback_overwrite :
    (runCode runInputC4 initialRunnerState).output = "System Error: boom"
      ∧ (runCode { runInputC4 with feedback := fun o => Except.ok o }
          initialRunnerState).output = "hi"
      ∧ ("System Error: boom" : String) ≠ "hi"
      ∧ (runCode runInputC4 initialRunnerState).feedbackRequested = some ""
      ∧ (some "" : Option String) ≠ some "hi" :=
  ⟨rfl, rfl, by decide, rfl, by decide⟩

/-- C4 (amended): after every run, success or failure, a feedback request is
issued carrying the output state value bound at render time (not the output
captured by this run); a successful response is delivered to onFeedback and
the run's output is the dispatch output; a failed request is caught by the
run's outer handler, which replaces the run's output with the
System-Error-prefixed message and delivers nothing — the failure is neither
separately logged nor kept from overwriting the run's output. -/
theorem runCode_feedback_behavior (inp : RunInput) (s : RunnerState) :
    (runCode inp s).feedbackRequested = some inp.outputAtRender
      ∧ (∀ fb, inp.feedback inp.outputAtRender = Except.ok fb →
          (runCode inp s).feedbackDelivered = some fb
            ∧ (runCode inp s).output =
                (dispatchRun inp { s with isRunning := true, output := "" }).output)
      ∧ (∀ e, inp.feedback inp.outputAtRender = Except.error e →
          (runCode inp s).output = "System Error: " ++ formatError e
            ∧ (runCode inp s).feedbackDelivered =
                (dispatchRun inp { s with isRunning := true, output := "" }).feedbackDelivered) := by
  unfold runCode tryCatchFinally
  cases hfb : inp.feedback inp.outputAtRender <;> simp [hfb]

/-- Witness for the amended C4 at the concrete failing-feedback input. -/
theorem runCode_feedback_behavior_witness :
    runInputC4.feedback runInputC4.outputAtRender
        = Except.error (JsErrVal.errObj "boom")
      ∧ (runCode runInputC4 initialRunnerState).output = "System Error: boom" :=
  ⟨rfl, ((runCode_feedback_behavior runInputC4 initialRunnerState).2.2
    (JsErrVal.errObj "boom") rfl).1.trans (by decide)⟩

/-- C9: a python run started before the interpreter has loaded only writes
the fixed not-ready output string — the dispatch is a plain state update, no
fault is raised or formatted — and when the follow-up feedback call answers
normally the run completes with that output and the running flag cleared. -/
theorem runCode_python_not_ready (inp : RunInput) (s : RunnerState)
    (hl : inp.language = CodeLanguage.python) (hp : inp.pyodide = none) :
    dispatchRun inp s = { s with output := "Python runtime not ready." }
      ∧ (∀ fb, inp.feedback inp.outputAtRender = Except.ok fb →
          (runCode inp s).output = "Python runtime not ready."
            ∧ (runCode inp s).isRunning = false) := by
  have hd : ∀ s1 : RunnerState,
      dispatchRun inp s1 = { s1 with output := "Python runtime not ready." } := by
    intro s1
    unfold dispatchRun runPyBranch
    rw [hl, hp]
  refine ⟨hd s, fun fb hfb => ?_⟩
  unfold runCode tryCatchFinally
  simp [hfb, hd]

/-- Witness for C9 at the concrete not-ready python input. -/
theorem runCode_python_not_ready_witness :
    runInputC9.language = CodeLanguage.python
      ∧ runInputC9.pyodide = none
      ∧ (runCode runInputC9 initialRunnerState).output = "Python runtime not ready." :=
  ⟨rfl, rfl,
    ((runCode_python_not_ready runInputC9 initialRunnerState rfl rfl).2 "" rfl).1⟩

/-- C8: at the default attempt count 3, a first-attempt failure that is not
quota-class propagates immediately with no wait; the wait trace is always one
of [], [d], [d, 2d] (so at most three attempts, with the delay doubling
between them); and every performed wait follows a quota-class failure of the
corresponding attempt. -/
theorem withRetry_quota_only_backoff :
    (∀ {α : Type} (fn : Nat → Except GeminiError α) (d : Nat) (e : GeminiError),
        fn 0 = Except.error e → isQuotaError e = false →
        withRetry fn 3 d = (Except.error e, []))
      ∧ (∀ {α : Type} (fn : Nat → Except GeminiError α) (d : Nat),
          (withRetry fn 3 d).2 = [] ∨ (withRetry fn 3 d).2 = [d]
            ∨ (withRetry fn 3 d).2 = [d, d * 2])
      ∧ (∀ {α : Type} (fn : Nat → Except GeminiError α) (d : Nat) (k : Nat),
          k < (withRetry fn 3 d).2.length →
          ∃ e, fn k = Except.error e ∧ isQuotaError e = true) := by
  refine ⟨?_, ?_, ?_⟩
  · intro α fn d e h0 hq
    simp [withRetry, withRetryGo, h0, hq]
  · intro α fn d
    unfold withRetry withRetryGo
    cases h0 : fn 0 with
    | ok a => simp
    | error e0 =>
      cases hq0 : isQuotaError e0 with
      | false => simp [hq0]
      | true =>
        simp only [hq0, Bool.true_and, if_pos]
        unfold withRetryGo
        cases h1 : fn 1 with
        | ok a => simp
        | error e1 =>
          cases hq1 : isQuotaError e1 with
          | false => simp [hq1]
          | true =>
            simp only [hq1, Bool.true_and, if_pos]
            unfold withRetryGo
            cases h2 : fn 2 <;> simp
  · intro α fn d k hk
    revert hk
    unfold withRetry withRetryGo
    cases h0 : fn 0 with
    | ok a => intro hk; simp at hk
    | error e0 =>
      cases hq0 : isQuotaError e0 with
      | false => intro hk; simp [hq0] at hk
      | true =>
        simp only [hq0, Bool.true_and, if_pos]
        unfold withRetryGo
        cases h1 : fn 1 with
        | ok a =>
          intro hk
          simp [Nat.lt_one_iff] at hk
          subst hk
          exact ⟨e0, h0, hq0⟩
        | error e1 =>
          cases hq1 : isQuotaError e1 with
          | false =>
            intro hk
            simp [hq1, Nat.lt_one_iff] at hk
            subst hk
            exact ⟨e0, h0, hq0⟩
          | true =>
            simp only [hq1, Bool.true_and, if_pos]
            unfold withRetryGo
            cases h2 : fn 2 with
            | ok a =>
              intro hk
              simp at hk
              interval_cases k
              · exact ⟨e0, h0, hq0⟩
              · exact ⟨e1, h1, hq1⟩
            | error e2 =>
              intro hk
              simp at hk
              interval_cases k
              · exact ⟨e0, h0, hq0⟩
              · exact ⟨e1, h1, hq1⟩

/-- Witness for C8: a non-quota failure propagates with an empty wait trace. -/
theorem withRetry_quota_only_backoff_witness :
    fnNonQuota 0 = Except.error ⟨some "boom", none⟩
      ∧ isQuotaError ⟨some "boom", none⟩ = false
      ∧ withRetry fnNonQuota 3 1000 = (Except.error ⟨some "boom", none⟩, []) :=
  ⟨rfl, by decide,
    withRetry_quota_only_backoff.1 fnNonQuota 1000 ⟨some "boom", none⟩ rfl (by decide)⟩

/-- C7: a course body accepted by POST /api/courses round-trips through
GET /api/courses: the store then contains a course entry carrying the
server-generated course id, the posted title and description, the posted
module titles in order, and for every module the posted lessons in order with
identical title, concept, example, practice and language fields; module and
lesson ids are the posted ones when present and non-empty, the generated ones
otherwise. The hypotheses say the request was accepted: the generated course
id is fresh (no stored module row references it) and the resolved module ids
neither collide with each other nor are referenced by stored lesson rows, as
the primary keys and the freshness of the generators guarantee. -/
theorem postCourses_get_roundTrip (db : DB) (body : CourseBody) (cid : String)
    (fm : Nat → String) (fl : Nat → Nat → String)
    (hcid : ∀ m ∈ db.modules, m.course_id ≠ cid)
    (hmnd : (resolvedModuleIds body fm).Nodup)
    (hfresh : ∀ l ∈ db.lessons, l.module_id ∉ resolvedModuleIds body fm) :
    ∃ e ∈ getCourses (postCourses db body cid fm fl).1,
      e.course.id = cid
        ∧ e.course.title = body.title
        ∧ e.course.description = body.description
        ∧ e.modules.map (fun p => p.1.id) = resolvedModuleIds body fm
        ∧ e.modules.map (fun p => p.1.title) = body.modules.map (fun mb => mb.title)
        ∧ e.modules.map (fun p => p.2.map lessonRowFields)
            = body.modules.map (fun mb => mb.lessons.map lessonBodyFields)
        ∧ e.modules.map (fun p => p.2.map (fun l => l.id))
            = body.modules.enum.map (fun im =>
                im.2.lessons.enum.map (fun jl => jsOrStr jl.2.id (fl im.1 jl.1))) := by
  classical
  have hkey : ∀ im ∈ body.modules.enum,
      ((db.lessons ++ body.modules.enum.flatMap (fun im2 =>
          postedLessonRows (jsOrStr im2.2.id (fm im2.1)) (fl im2.1) im2.2.lessons)).filter
            (fun l => l.module_id == jsOrStr im.2.id (fm im.1)))
        = postedLessonRows (jsOrStr im.2.id (fm im.1)) (fl im.1) im.2.lessons := by
    intro im him
    rw [List.filter_append]
    have hold : db.lessons.filter
        (fun l => l.module_id == jsOrStr im.2.id (fm im.1)) = [] := by
      rw [List.filter_eq_nil_iff]
      intro l hl heq
      have hmem : jsOrStr im.2.id (fm im.1) ∈ resolvedModuleIds body fm :=
        List.mem_map.mpr ⟨im, him, rfl⟩
      exact hfresh l hl ((eq_of_beq heq) ▸ hmem)
    have hblocks := filter_flatMap_unique
      (fun im2 : Nat × ModuleBody => jsOrStr im2.2.id (fm im2.1))
      (fun im2 => postedLessonRows (jsOrStr im2.2.id (fm im2.1)) (fl im2.1) im2.2.lessons)
      (fun l => l.module_id) body.modules.enum hmnd
      (by
        intro a _ b hb
        obtain ⟨jl, _, rfl⟩ := List.mem_map.mp hb
        rfl)
      im him
    rw [hold, List.nil_append, hblocks]
  have hmodsel : (db.modules ++ body.modules.enum.map (fun im =>
        (⟨jsOrStr im.2.id (fm im.1), cid, im.2.title⟩ : ModuleRow))).filter
          (fun m => m.course_id == cid)
      = body.modules.enum.map (fun im =>
          (⟨jsOrStr im.2.id (fm im.1), cid, im.2.title⟩ : ModuleRow)) := by
    rw [List.filter_append]
    have h1 : db.modules.filter (fun m => m.course_id == cid) = [] := by
      rw [List.filter_eq_nil_iff]
      intro m hm heq
      exact hcid m hm (eq_of_beq heq)
    have h2 : (body.modules.enum.map (fun im =>
          (⟨jsOrStr im.2.id (fm im.1), cid, im.2.title⟩ : ModuleRow))).filter
            (fun m => m.course_id == cid)
        = body.modules.enum.map (fun im =>
            (⟨jsOrStr im.2.id (fm im.1), cid, im.2.title⟩ : ModuleRow)) := by
      rw [List.filter_eq_self]
      intro m hm
      obtain ⟨im, _, rfl⟩ := List.mem_map.mp hm
      exact beq_self_eq_true cid
    rw [h1, h2, List.nil_append]
  have hpairs : ((db.modules ++ body.modules.enum.map (fun im =>
        (⟨jsOrStr im.2.id (fm im.1), cid, im.2.title⟩ : ModuleRow))).filter
          (fun m => m.course_id == cid)).map (fun m =>
            (m, (db.lessons ++ body.modules.enum.flatMap (fun im2 =>
              postedLessonRows (jsOrStr im2.2.id (fm im2.1)) (fl im2.1) im2.2.lessons)).filter
                (fun l => l.module_id == m.id)))
      = body.modules.enum.map (fun im =>
          ((⟨jsOrStr im.2.id (fm im.1), cid, im.2.title⟩ : ModuleRow),
           postedLessonRows (jsOrStr im.2.id (fm im.1)) (fl im.1) im.2.lessons)) := by
    rw [hmodsel, List.map_map]
    refine List.map_congr_left ?_
    intro im him
    exact congrArg (Prod.mk _) (hkey im him)
  refine ⟨_, List.mem_map.mpr
    ⟨⟨cid, body.title, body.description, jsOrStr body.image_url (defaultImage cid)⟩,
      List.mem_append_right _ (by simp), rfl⟩, ?_⟩
  dsimp only [postCourses]
  refine ⟨rfl, rfl, rfl, ?_, ?_, ?_, ?_⟩
  · rw [hpairs, List.map_map]
    rfl
  · rw [hpairs, List.map_map]
    exact enumMap_snd body.modules (fun mb => mb.title)
  · rw [hpairs, List.map_map]
    have hpt : ∀ im ∈ body.modules.enum,
        ((fun p : ModuleRow × List LessonRow => p.2.map lessonRowFields) ∘
          (fun im : Nat × ModuleBody =>
            ((⟨jsOrStr im.2.id (fm im.1), cid, im.2.title⟩ : ModuleRow),
             postedLessonRows (jsOrStr im.2.id (fm im.1)) (fl im.1) im.2.lessons))) im
          = im.2.lessons.map lessonBodyFields := by
      intro im _
      exact postedLessonRows_fields _ _ _
    rw [List.map_congr_left hpt]
    exact enumMap_snd body.modules (fun mb => mb.lessons.map lessonBodyFields)
  · rw [hpairs, List.map_map]
    refine List.map_congr_left ?_
    intro im _
    exact postedLessonRows_ids _ _ _

/-- Witness for C7: posting the concrete one-module, one-lesson body into the
empty store, with generated module id GM and lesson id GL, satisfies the
freshness hypotheses and round-trips. -/
theorem postCourses_get_roundTrip_witness :
    (∀ m ∈ emptyDB.modules, m.course_id ≠ "c9")
      ∧ (resolvedModuleIds bodyW (fun _ => "GM")).Nodup
      ∧ (∀ l ∈ emptyDB.lessons,
          l.module_id ∉ resolvedModuleIds bodyW (fun _ => "GM"))
      ∧ ∃ e ∈ getCourses
            (postCourses emptyDB bodyW "c9" (fun _ => "GM") (fun _ _ => "GL")).1,
          e.course.id = "c9"
            ∧ e.course.title = bodyW.title
            ∧ e.course.description = bodyW.description
            ∧ e.modules.map (fun p => p.1.id) = resolvedModuleIds bodyW (fun _ => "GM")
            ∧ e.modules.map (fun p => p.1.title)
                = bodyW.modules.map (fun mb => mb.title)
            ∧ e.modules.map (fun p => p.2.map lessonRowFields)
                = bodyW.modules.map (fun mb => mb.lessons.map lessonBodyFields)
            ∧ e.modules.map (fun p => p.2.map (fun l => l.id))
                = bodyW.modules.enum.map (fun im =>
                    im.2.lessons.enum.map (fun jl =>
                      jsOrStr jl.2.id ((fun _ _ => "GL") im.1 jl.1))) :=
  ⟨by simp [emptyDB], by decide, by simp [emptyDB],
    postCourses_get_roundTrip emptyDB bodyW "c9" (fun _ => "GM") (fun _ _ => "GL")
      (by simp [emptyDB]) (by decide) (by simp [emptyDB])⟩

end LoomAI
